import Mathlib

/-!
Verification development for the promptcraft-dungeon orchestration core
(backend/app/services/game_service.py, backend/app/services/ai_service.py,
backend/app/schemas/ai_responses.py, backend/app/models/game.py).

The Python code is shallowly embedded: pure fragments become Lean
functions, SQLAlchemy-session mutation becomes explicit state passing over
the committed state, exceptions become `Except`, and the two external
generative providers plus the standard-library JSON parser and pydantic
serializer are oracle parameters.  Machine integers are `Int`/`Nat`
(Python integers are unbounded, so no wrap-around modelling is needed).
-/

/-! ## Python string semantics helpers -/

/-- Whitespace set used by Python `str.strip()` restricted to the ASCII
whitespace characters that occur in this code base. -/
def isPyWhitespace (c : Char) : Bool :=
  c = ' ' || c = '\t' || c = '\n' || c = '\r' || c = '\x0b' || c = '\x0c'

/-- Models Python `str.strip()`: drop leading and trailing whitespace. -/
def pyStrip (s : String) : String :=
  String.mk (((s.data.dropWhile isPyWhitespace).reverse.dropWhile isPyWhitespace).reverse)

/-- Models Python `str.lower()` on the ASCII range (item names and effect
strings in this code base are ASCII). -/
def pyLower (s : String) : String :=
  String.mk (s.data.map Char.toLower)

/-- Digit run accepted by Python `int(...)` after the sign: digits with
single underscores allowed strictly between digits.  `lastWasUnd` records
whether the previous character was an underscore. -/
def pyDigitsGo : List Char → Bool → Nat → Option Nat
  | [], lastWasUnd, acc => if lastWasUnd then none else some acc
  | c :: cs, lastWasUnd, acc =>
    if c = '_' then
      if lastWasUnd then none else pyDigitsGo cs true acc
    else if c.isDigit then
      pyDigitsGo cs false (acc * 10 + (c.toNat - 48))
    else none

/-- Parses a nonempty digit run (underscore grouping allowed, but not at
the start). -/
def pyDigits : List Char → Option Nat
  | [] => none
  | c :: cs => if c = '_' then none else pyDigitsGo (c :: cs) false 0

/-- Models Python `int(s)` on a decimal string: surrounding whitespace is
stripped, then an optional sign and a nonempty digit run; anything else
raises `ValueError`, modelled as `none`. -/
def pyInt (s : String) : Option Int :=
  match (pyStrip s).data with
  | '+' :: rest => (pyDigits rest).map Int.ofNat
  | '-' :: rest => (pyDigits rest).map (fun n => -(Int.ofNat n))
  | cs => (pyDigits cs).map Int.ofNat

/-- Python truthiness of an `Optional[str]`: `None` and the empty string
are falsy. -/
def truthyOptStr : Option String → Bool
  | none => false
  | some s => !(s == "")

/-- Models Python `x or default` for an `Optional[str]` value. -/
def orElseStr (o : Option String) (d : String) : String :=
  match o with
  | some s => if s == "" then d else s
  | none => d

/-- SQL `LIKE` matching with `%` (any run) and `_` (any single character)
wildcards, with explicit fuel so that the definition is structural and
evaluates in the kernel.  The fuel `p.length + s.length + 1` always
suffices because every recursive call shrinks `p.length + s.length`. -/
def likeMatchFuel : Nat → List Char → List Char → Bool
  | 0, _, _ => false
  | _ + 1, [], [] => true
  | _ + 1, [], _ :: _ => false
  | f + 1, p :: ps, s =>
    if p = '%' then
      likeMatchFuel f ps s ||
        (match s with
         | [] => false
         | _ :: s2 => likeMatchFuel f (p :: ps) s2)
    else
      match s with
      | [] => false
      | c :: s2 =>
        if p = '_' then likeMatchFuel f ps s2
        else (p == c) && likeMatchFuel f ps s2

/-- Models SQLAlchemy `column.ilike(pattern)`: case-insensitive SQL LIKE
(both sides lowered, wildcards interpreted in the pattern). -/
def sqlIlike (value pattern : String) : Bool :=
  likeMatchFuel ((pyLower pattern).data.length + (pyLower value).data.length + 1)
    (pyLower pattern).data (pyLower value).data

/-! ## Data model (backend/app/models/game.py, backend/app/schemas/ai_responses.py) -/

/-- Row of the `items` table (class `Item`): a base item definition. -/
structure Item where
  id : Nat
  item_key : String
  name : String
deriving DecidableEq

/-- Row of the `player_inventory` association table (class
`PlayerInventoryItem`); the related `Item` is carried inline in place of
the SQLAlchemy relationship. -/
structure InvEntry where
  item : Item
  quantity : Nat
deriving DecidableEq

/-- Class `Player` (stats plus loaded inventory relationship). -/
structure Player where
  health : Int
  max_health : Int
  gold : Int
  experience : Int
  level : Int
  inventory_items : List InvEntry
deriving DecidableEq

/-- Pydantic model `AIEventEffect` (backend/app/schemas/ai_responses.py).
`Optional[str]` fields are `Option String`; `List[str]` fields default to
`[]`. -/
structure AIEventEffect where
  health : Option String
  inventory_add : List String
  inventory_remove : List String
  gold : Option String
  xp : Option String
  status_effect_add : List String
  status_effect_remove : List String
deriving DecidableEq

/-- Pydantic model `AIEvent` (backend/app/schemas/ai_responses.py). -/
structure AIEvent where
  type : String
  description : String
  resolution : Option String
  effects : Option AIEventEffect
deriving DecidableEq

/-- Pydantic model `AIResponse` as declared in
backend/app/schemas/ai_responses.py — the class actually imported by both
services.  `triggered_events` is `Optional[List[AIEvent]]` with default
`[]`, so a JSON `null` yields `none` while a missing key yields `some []`.
Note that this class declares NO `new_room_exits` field (that field exists
only in the unused backend/app/models/ai_responses.py). -/
structure AIResponse where
  action_result_description : String
  triggered_events : Option (List AIEvent)
  room_description : Option String
  new_room_title : Option String
  suggested_actions : Option (List String)
  sound_effect : Option String
deriving DecidableEq

/-- The field names declared on the pydantic class `AIResponse` in
backend/app/schemas/ai_responses.py, in source order.  With
`extra="ignore"` any other input key is discarded during validation, so
these are exactly the attributes an `AIResponse` instance exposes. -/
def airesponseFieldNames : List String :=
  ["action_result_description", "triggered_events", "room_description",
   "new_room_title", "suggested_actions", "sound_effect"]

/-- Row of the `chat_messages` table (class `ChatMessage`), without the
timestamp (never read by the orchestration core). -/
structure ChatMessage where
  role : String
  content : String
  turn_number : Nat
deriving DecidableEq

/-- The dictionary stored in `GameState.current_room_json` (title,
persistent description, exits, transient events). -/
structure CurrentRoom where
  title : String
  description : String
  exits : List String
  events : List AIEvent
deriving DecidableEq

/-- Class `GameState` with its loaded relationships. -/
structure GameState where
  difficulty : String
  rooms_cleared : Nat
  current_room : Option CurrentRoom
  player : Player
  chat_messages : List ChatMessage
deriving DecidableEq

/-- Python exceptions that the embedded control flow can raise. -/
inductive PyError where
  | attributeError (name : String)
  | typeError (msg : String)
  | multipleResultsFound
deriving DecidableEq

/-- Rendering of a `PyError` used when `handle_player_command` formats the
caught exception into its error string. -/
def pyErrorText : PyError → String
  | .attributeError n => "AttributeError: " ++ n
  | .typeError m => "TypeError: " ++ m
  | .multipleResultsFound => "MultipleResultsFound"

/-- `GameState.get_chat_history_for_ai`: messages as role/content pairs in
stored order. -/
def get_chat_history_for_ai (gs : GameState) : List (String × String) :=
  gs.chat_messages.map (fun m => (m.role, m.content))

/-- `GameState.add_chat_message`: append a message to the history. -/
def add_chat_message (gs : GameState) (role content : String) (turn_number : Nat) :
    GameState :=
  { gs with chat_messages := gs.chat_messages ++ [⟨role, content, turn_number⟩] }

/-! ## EffectApplicationEngine (`GameService._apply_ai_effects`) -/

/-- Stat-change step for `effects.xp` (game_service.py lines 337-349):
positive deltas are added to experience, nonpositive ones are logged and
ignored.  An unparseable value raises `ValueError`, aborting the rest of
the stat block — since xp is the last stat, the state is returned as is. -/
def stats_from_xp (p : Player) (eff : AIEventEffect) : Player :=
  match eff.xp with
  | none => p
  | some s =>
    match pyInt s with
    | none => p
    | some delta =>
      if delta > 0 then { p with experience := p.experience + delta } else p

/-- Stat-change step for `effects.gold` (game_service.py lines 331-336)
followed by the xp step.  An unparseable gold value raises `ValueError`
inside the shared `try`, so the xp step is skipped and the state so far
is kept. -/
def stats_from_gold (p : Player) (eff : AIEventEffect) : Player :=
  match eff.gold with
  | none => stats_from_xp p eff
  | some s =>
    match pyInt s with
    | none => p
    | some delta => stats_from_xp { p with gold := max 0 (p.gold + delta) } eff

/-- Stat-change block of `_apply_ai_effects` (game_service.py lines
321-353): health, then gold, then xp, all inside one `try`; the first
`ValueError` from `int(...)` aborts the remaining stat changes but keeps
the ones already applied.  Health is clamped as
`max(0, min(max_health, health + delta))`. -/
def apply_stat_changes (p : Player) (eff : AIEventEffect) : Player :=
  match eff.health with
  | none => stats_from_gold p eff
  | some s =>
    match pyInt s with
    | none => p
    | some delta =>
      stats_from_gold
        { p with health := max 0 (min p.max_health (p.health + delta)) } eff

/-- Inner loop of the inventory-removal block (game_service.py lines
363-394): find the first inventory entry whose related item name matches
the lowered request case-insensitively; decrement its quantity if it is
above 1, otherwise delete the entry (`db.session.delete`, modelled by its
committed effect); no match is a logged no-op. -/
def removeOne (inv : List InvEntry) (nameLower : String) : List InvEntry :=
  match inv with
  | [] => []
  | e :: rest =>
    if pyLower e.item.name == nameLower then
      if e.quantity > 1 then { e with quantity := e.quantity - 1 } :: rest
      else rest
    else e :: removeOne rest nameLower

/-- One iteration of the removal loop (game_service.py lines 358-394):
lower and strip the requested name, skip it when the result is empty,
otherwise remove one instance. -/
def remove_item_name (inv : List InvEntry) (raw : String) : List InvEntry :=
  let nameLower := pyStrip (pyLower raw)
  if nameLower == "" then inv else removeOne inv nameLower

/-- Inventory-removal block of `_apply_ai_effects` (game_service.py lines
355-396): process the requested names in order.  Processing an empty list
coincides with the falsy `if effects.inventory_remove:` guard. -/
def apply_removals (inv : List InvEntry) (names : List String) : List InvEntry :=
  match names with
  | [] => inv
  | n :: rest => apply_removals (remove_item_name inv n) rest

/-- Key generation for additions (game_service.py line 405):
`item_name_clean.lower().replace(" ", "_")`. -/
def make_item_key (clean : String) : String :=
  String.mk ((pyLower clean).data.map (fun c => if c = ' ' then '_' else c))

/-- The item-definition query of the addition block (game_service.py lines
417-421): `select(Item).where((Item.item_key == item_key) |
(Item.name.ilike(item_name_clean)))` followed by `scalar_one_or_none()`,
which yields `none` for no row, the row when unique, and raises
`MultipleResultsFound` otherwise. -/
def find_item_def (catalog : List Item) (item_key clean : String) :
    Except PyError (Option Item) :=
  match catalog.filter (fun it => it.item_key == item_key || sqlIlike it.name clean) with
  | [] => .ok none
  | [it] => .ok (some it)
  | _ :: _ :: _ => .error .multipleResultsFound

/-- Increment the quantity of the first entry whose `item_id` matches
(game_service.py lines 439-449). -/
def bump_first : List InvEntry → Nat → List InvEntry
  | [], _ => []
  | e :: rest, itemId =>
    if e.item.id == itemId then { e with quantity := e.quantity + 1 } :: rest
    else e :: bump_first rest itemId

/-- Add-or-update step once the item definition is resolved
(game_service.py lines 438-460): increment the existing entry for that
item id, or append a fresh entry with quantity 1. -/
def add_entry (inv : List InvEntry) (it : Item) : List InvEntry :=
  if inv.any (fun e => e.item.id == it.id) then bump_first inv it.id
  else inv ++ [⟨it, 1⟩]

/-- The per-call `items_cache` dictionary (game_service.py line 308),
keyed by generated item key. -/
def ItemsCache := List (String × Item)

/-- One iteration of the addition loop (game_service.py lines 401-461):
strip the name and skip it when empty; resolve the item definition through
the cache or the database query, caching a hit; skip the addition when no
definition exists; otherwise add or increment the inventory entry. -/
def add_item_name (catalog : List Item) (st : ItemsCache × List InvEntry)
    (raw : String) : Except PyError (ItemsCache × List InvEntry) :=
  let clean := pyStrip raw
  if clean == "" then .ok st
  else
    let key := make_item_key clean
    let (cache, inv) := st
    match List.lookup key cache with
    | some it => .ok (cache, add_entry inv it)
    | none =>
      match find_item_def catalog key clean with
      | .error e => .error e
      | .ok none => .ok (cache, inv)
      | .ok (some it) => .ok ((key, it) :: cache, add_entry inv it)

/-- Inventory-addition block of `_apply_ai_effects` (game_service.py lines
398-463): process the requested names in order, threading the cache. -/
def apply_additions (catalog : List Item) (st : ItemsCache × List InvEntry) :
    List String → Except PyError (ItemsCache × List InvEntry)
  | [] => .ok st
  | n :: rest =>
    match add_item_name catalog st n with
    | .error e => .error e
    | .ok st2 => apply_additions catalog st2 rest

/-- Effect application for one event's `effects` block (game_service.py
lines 316-468): stat changes, then inventory removals, then inventory
additions (status-effect lists are accepted but are no-ops).  Player
mutation is modelled by returning the updated player. -/
def apply_event_effects (catalog : List Item) (st : ItemsCache × Player)
    (eff : AIEventEffect) : Except PyError (ItemsCache × Player) :=
  let (cache, p) := st
  let p1 := apply_stat_changes p eff
  let inv1 := apply_removals p1.inventory_items eff.inventory_remove
  match apply_additions catalog (cache, inv1) eff.inventory_add with
  | .error e => .error e
  | .ok (cache2, inv2) => .ok (cache2, { p1 with inventory_items := inv2 })

/-- The event loop of `_apply_ai_effects` (game_service.py lines 312-314):
events without an `effects` block are skipped, the rest are applied in
order. -/
def apply_events (catalog : List Item) :
    List AIEvent → ItemsCache × Player → Except PyError (ItemsCache × Player)
  | [], st => .ok st
  | ev :: rest, st =>
    match ev.effects with
    | none => apply_events catalog rest st
    | some eff =>
      match apply_event_effects catalog st eff with
      | .error e => .error e
      | .ok st2 => apply_events catalog rest st2

/-- `GameService._apply_ai_effects` (game_service.py lines 298-471).
`triggered_events` can be `None` after validation (`Optional[List]`), in
which case `for event in ai_response.triggered_events` raises
`TypeError`. -/
def apply_ai_effects (catalog : List Item) (p : Player) (resp : AIResponse) :
    Except PyError Player :=
  match resp.triggered_events with
  | none => .error (.typeError "NoneType object is not iterable")
  | some evs =>
    match apply_events catalog evs ([], p) with
    | .error e => .error e
    | .ok st => .ok st.2

/-! ## RoomTransitionStateMachine and SessionOrchestrator
(`GameService.handle_player_command`, game_service.py lines 135-258) -/

/-- Pydantic attribute access for `ai_response.new_room_exits`
(game_service.py line 224).  With `extra="ignore"` the instance exposes
exactly the declared fields, so reading an undeclared attribute raises
`AttributeError`; the declared-field list is `airesponseFieldNames` taken
from backend/app/schemas/ai_responses.py.  The value of the `ok` branch is
immaterial: it is reachable only if the class declared the field. -/
def read_new_room_exits (_ : AIResponse) : Except PyError (Option (List String)) :=
  if airesponseFieldNames.contains "new_room_exits" then .ok none
  else .error (.attributeError "new_room_exits")

/-- Room update step of `handle_player_command` (game_service.py lines
214-241): a truthy `room_description` replaces the current room (title
from `new_room_title or "Unknown Area"`, exits from the `new_room_exits`
attribute read, events reset) and increments `rooms_cleared`; otherwise
the room state is left untouched. -/
def update_room (gs : GameState) (resp : AIResponse) : Except PyError GameState :=
  match resp.room_description with
  | none => .ok gs
  | some desc =>
    if desc == "" then .ok gs
    else
      let new_title := orElseStr resp.new_room_title "Unknown Area"
      match read_new_room_exits resp with
      | .error e => .error e
      | .ok exits =>
        .ok { gs with
                current_room := some
                  { title := new_title, description := desc,
                    exits := exits.getD [], events := [] },
                rooms_cleared := gs.rooms_cleared + 1 }

/-- `GameService.handle_player_command` after a successful session load
(game_service.py lines 135-258).  The generative call is an oracle input
`ai = (ai_response, ai_error)` — the pair returned by
`AIService.generate_structured_response` — and `dump` stands for pydantic
`model_dump_json`.  A falsy error together with a present response takes
the success path: append the user command and the assistant reply to the
history, apply the effects, update the room, and return the updated state;
an AI failure returns the loaded state unchanged; any raised exception is
caught by the surrounding `except`, the transaction is rolled back, and
`(None, None, message)` is returned. -/
def handle_player_command (catalog : List Item) (dump : AIResponse → String)
    (gs : GameState) (command : String)
    (ai : Option AIResponse × Option String) :
    Option GameState × Option AIResponse × Option String :=
  let (ai_response, ai_error) := ai
  match ai_response with
  | none =>
    (some gs, none, some ("AI interaction failed: " ++ orElseStr ai_error "No response"))
  | some resp =>
    if truthyOptStr ai_error then
      (some gs, none, some ("AI interaction failed: " ++ orElseStr ai_error "No response"))
    else
      let current_turn := (get_chat_history_for_ai gs).length
      let gs1 := add_chat_message gs "user" command current_turn
      let gs2 := add_chat_message gs1 "assistant" (dump resp) (current_turn + 1)
      match apply_ai_effects catalog gs2.player resp with
      | .error e =>
        (none, none, some ("An unexpected server error occurred: " ++ pyErrorText e))
      | .ok p2 =>
        let gs3 := { gs2 with player := p2 }
        match update_room gs3 resp with
        | .error e =>
          (none, none, some ("An unexpected server error occurred: " ++ pyErrorText e))
        | .ok gs4 => (some gs4, some resp, none)

/-! ## StructuredResponseValidator (backend/app/schemas/ai_responses.py via
`AIResponse.model_validate`) -/

/-- JSON values as produced by `json.loads` (numbers restricted to the
integers, which is all this code base ever inspects). -/
inductive Json where
  | null
  | str (s : String)
  | num (n : Int)
  | bool (b : Bool)
  | arr (xs : List Json)
  | obj (kvs : List (String × Json))

/-- Pydantic validation of a required `str` field: missing or non-string
input is a `ValidationError`. -/
def validate_req_str (kvs : List (String × Json)) (key : String) :
    Except String String :=
  match List.lookup key kvs with
  | none => .error (key ++ ": Field required")
  | some (.str s) => .ok s
  | some _ => .error (key ++ ": Input should be a valid string")

/-- Pydantic validation of an `Optional[str]` field with default `None`:
missing and `null` give `None`, a string is kept, anything else fails. -/
def validate_opt_str (kvs : List (String × Json)) (key : String) :
    Except String (Option String) :=
  match List.lookup key kvs with
  | none => .ok none
  | some .null => .ok none
  | some (.str s) => .ok (some s)
  | some _ => .error (key ++ ": Input should be a valid string")

/-- Pydantic validation of the elements of a `List[str]` value. -/
def validate_str_list : List Json → Except String (List String)
  | [] => .ok []
  | .str s :: rest => (validate_str_list rest).map (fun xs => s :: xs)
  | _ :: _ => .error "Input should be a valid string"

/-- Pydantic validation of a `List[str]` field with `default_factory=list`:
missing gives `[]`; `null` is NOT accepted (the annotation is not
`Optional`). -/
def validate_str_list_field (kvs : List (String × Json)) (key : String) :
    Except String (List String) :=
  match List.lookup key kvs with
  | none => .ok []
  | some (.arr xs) => validate_str_list xs
  | some _ => .error (key ++ ": Input should be a valid list")

/-- `AIEventEffect.model_validate`: all fields optional with defaults,
unknown keys ignored (`extra="ignore"`). -/
def effect_model_validate : Json → Except String AIEventEffect
  | .obj kvs => do
    let health ← validate_opt_str kvs "health"
    let inventory_add ← validate_str_list_field kvs "inventory_add"
    let inventory_remove ← validate_str_list_field kvs "inventory_remove"
    let gold ← validate_opt_str kvs "gold"
    let xp ← validate_opt_str kvs "xp"
    let status_effect_add ← validate_str_list_field kvs "status_effect_add"
    let status_effect_remove ← validate_str_list_field kvs "status_effect_remove"
    .ok ⟨health, inventory_add, inventory_remove, gold, xp,
         status_effect_add, status_effect_remove⟩
  | _ => .error "effects: Input should be a valid dictionary"

/-- `AIEvent.model_validate`: `type` and `description` are required
strings, `resolution` and `effects` optional. -/
def event_model_validate : Json → Except String AIEvent
  | .obj kvs => do
    let type ← validate_req_str kvs "type"
    let description ← validate_req_str kvs "description"
    let resolution ← validate_opt_str kvs "resolution"
    let effects ←
      match List.lookup "effects" kvs with
      | none => .ok none
      | some .null => .ok none
      | some j => (effect_model_validate j).map some
    .ok ⟨type, description, resolution, effects⟩
  | _ => .error "triggered_events: Input should be a valid dictionary"

/-- Element-wise validation of the `triggered_events` list. -/
def events_model_validate : List Json → Except String (List AIEvent)
  | [] => .ok []
  | j :: rest => do
    let e ← event_model_validate j
    let es ← events_model_validate rest
    .ok (e :: es)

/-- `AIResponse.model_validate` over the schema of
backend/app/schemas/ai_responses.py: `action_result_description` is a
required string (any string, the schema imposes no minimum length);
`triggered_events` is `Optional[List[AIEvent]]` defaulting to `[]`; the
remaining fields are optional with default `None`; unknown keys are
ignored (`extra="ignore"`); non-object input fails. -/
def model_validate : Json → Except String AIResponse
  | .obj kvs => do
    let action_result_description ← validate_req_str kvs "action_result_description"
    let triggered_events ←
      match List.lookup "triggered_events" kvs with
      | none => .ok (some [])
      | some .null => .ok none
      | some (.arr xs) => (events_model_validate xs).map some
      | some _ =>
        .error "triggered_events: Input should be a valid list"
    let room_description ← validate_opt_str kvs "room_description"
    let new_room_title ← validate_opt_str kvs "new_room_title"
    let suggested_actions ←
      match List.lookup "suggested_actions" kvs with
      | none => .ok none
      | some .null => .ok none
      | some (.arr xs) => (validate_str_list xs).map some
      | some _ =>
        .error "suggested_actions: Input should be a valid list"
    let sound_effect ← validate_opt_str kvs "sound_effect"
    .ok ⟨action_result_description, triggered_events, room_description,
         new_room_title, suggested_actions, sound_effect⟩
  | _ => .error "Input should be a valid dictionary"

/-! ## ResponseSanitizer (`AIService._clean_raw_response`, ai_service.py
lines 367-408).  `jsonParse` is the oracle for `json.loads`, returning
`none` when the library would raise `JSONDecodeError`. -/

/-- Fence-stripping step (ai_service.py lines 372-376): when the stripped
text starts with three backticks, keep the part after the first newline
(or drop the three backticks when there is none), then strip a trailing
fence. -/
def strip_code_fence (cs : List Char) : List Char :=
  if ("```".data.isPrefixOf cs) then
    let c1 := if cs.contains '\n' then (cs.dropWhile (fun c => !(c == '\n'))).drop 1
              else cs.drop 3
    if ("```".data.isSuffixOf c1) then
      (pyStrip (String.mk (c1.take (c1.length - 3)))).data
    else c1
  else cs

/-- `AIService._clean_raw_response`: strip, remove one fenced block, accept
text bounded by braces or brackets, otherwise extract from the first
opening brace to the last closing brace and keep the extraction only when
it test-parses. -/
def clean_raw_response (jsonParse : String → Option Json) (raw : String) :
    Option String :=
  let cs := strip_code_fence (pyStrip raw).data
  if ("\x7b".data.isPrefixOf cs) && ("\x7d".data.isSuffixOf cs) then
    some (String.mk cs)
  else if ("[".data.isPrefixOf cs) && ("]".data.isSuffixOf cs) then
    some (String.mk cs)
  else
    match cs.findIdx? (fun c => c == '{'), cs.reverse.findIdx? (fun c => c == '}') with
    | some jsonStart, some revEnd =>
      let jsonEnd := cs.length - 1 - revEnd
      if jsonStart < jsonEnd then
        let extracted := String.mk ((cs.drop jsonStart).take (jsonEnd + 1 - jsonStart))
        match jsonParse extracted with
        | some _ => some extracted
        | none => none
      else none
    | _, _ => none

/-! ## FailoverOrchestrator (`AIService.generate_structured_response`,
ai_service.py lines 135-365) -/

/-- The configuration state of an `AIService` instance that the failover
logic reads: the preference flag, the optional local base URL, the
memoized result of the local health probe (`_check_local_ollama` caches a
single probe per instance), whether the Gemini client was initialized, and
the two model names used in error messages. -/
structure AIConfig where
  use_local_preference : Bool
  local_url : Option String
  local_available : Bool
  gemini_configured : Bool
  ollama_model : String
  gemini_model : String

/-- `AIService._check_local_ollama`: `false` without a configured URL,
otherwise the memoized health-probe result. -/
def check_local_ollama (cfg : AIConfig) : Bool :=
  match cfg.local_url with
  | none => false
  | some _ => cfg.local_available

/-- Outcome of one `AIService._query_local` call, as an oracle.  All
exception classes it can raise (`TimeoutError`, `ConnectionError`,
`AIResponseError`, any other `Exception`) are caught by the same handler
in `generate_structured_response`, so they share one constructor carrying
the kind for the record and the exception text. -/
inductive LocalExcKind where
  | timeout
  | connection
  | aiResponse
  | other
deriving DecidableEq

/-- Result of the local provider query. -/
inductive LocalOutcome where
  | success (raw : String)
  | exc (kind : LocalExcKind) (msg : String)

/-- Exception classes of `AIService._query_gemini` other than
`APIStatusError`; `generate_structured_response` handles them all in one
clause. -/
inductive GeminiExcKind where
  | timeout
  | connection
  | rateLimit
  | other
deriving DecidableEq

/-- Result of the cloud provider query.  `statusError` carries the HTTP
status code and the response body of an `APIStatusError`. -/
inductive GeminiOutcome where
  | success (raw : String)
  | statusError (code : Nat) (body : String)
  | exc (kind : GeminiExcKind) (msg : String)

/-- Providers, for recording which `_query_*` calls a single
`generate_structured_response` call performs, in order. -/
inductive Provider where
  | localOllama
  | cloudGemini
deriving DecidableEq

/-- Return value of the embedded `generate_structured_response` plus the
trace of provider queries performed. -/
structure GenResult where
  reply : Option AIResponse
  error : Option String
  attempts : List Provider
deriving DecidableEq

/-- Models `e.body or 'No details'` in the Gemini status-error messages. -/
def orNoDetails (body : String) : String :=
  if body == "" then "No details" else body

/-- Final parse-and-validate stage of `generate_structured_response`
(ai_service.py lines 320-344): sanitize the raw text, `json.loads` it,
`AIResponse.model_validate` the result; every failure in this stage is
caught by the first `except` clause and returned as a decode error for the
service that produced the text — no further provider query happens. -/
def finish_parse (jsonParse : String → Option Json) (raw service_used : String)
    (attempts : List Provider) : GenResult :=
  match clean_raw_response jsonParse raw with
  | none =>
    { reply := none,
      error := some ("AI response JSON decode failed (" ++ service_used ++
        "): Response was not valid JSON and no JSON block could be extracted."),
      attempts := attempts }
  | some cleaned =>
    match jsonParse cleaned with
    | none =>
      { reply := none,
        error := some ("AI response JSON decode failed (" ++ service_used ++
          "): JSONDecodeError"),
        attempts := attempts }
    | some j =>
      match model_validate j with
      | .error e =>
        { reply := none,
          error := some ("AI response JSON decode failed (" ++ service_used ++
            "): " ++ e),
          attempts := attempts }
      | .ok r => { reply := some r, error := none, attempts := attempts }

/-- `AIService.generate_structured_response` (ai_service.py lines
135-365), with the two provider calls as oracles.  Control flow mirrors
the source: a local-first attempt (taken when the preference is set, a URL
is configured and the memoized probe succeeded) falls back to Gemini on
ANY exception, provided the Gemini client is configured; a cloud-first
attempt falls back to the local provider only on an `APIStatusError` with
status 403 and only when the local provider is configured and probed
available; every other cloud failure is returned directly; a successful
raw response is then parsed and validated without further provider
queries. -/
def generate_structured_response (cfg : AIConfig)
    (jsonParse : String → Option Json)
    (lo : LocalOutcome) (go : GeminiOutcome) : GenResult :=
  if cfg.use_local_preference && cfg.local_url.isSome && check_local_ollama cfg then
    match lo with
    | .success raw =>
      finish_parse jsonParse raw ("Ollama (" ++ cfg.ollama_model ++ ")")
        [.localOllama]
    | .exc _ e =>
      let errLocal := "Local AI (" ++ cfg.ollama_model ++ ") failed: " ++ e ++ ". "
      if cfg.gemini_configured then
        match go with
        | .success raw =>
          finish_parse jsonParse raw ("Gemini (" ++ cfg.gemini_model ++ ")")
            [.localOllama, .cloudGemini]
        | .statusError code body =>
          { reply := none,
            error := some (errLocal ++ "Fallback Cloud AI (" ++ cfg.gemini_model ++
              ") also failed - Gemini API error (Status " ++ toString code ++
              "): " ++ orNoDetails body),
            attempts := [.localOllama, .cloudGemini] }
        | .exc _ e2 =>
          { reply := none,
            error := some (errLocal ++ "Fallback Cloud AI (" ++ cfg.gemini_model ++
              ") also failed: " ++ e2),
            attempts := [.localOllama, .cloudGemini] }
      else
        { reply := none, error := some errLocal, attempts := [.localOllama] }
  else
    if cfg.gemini_configured then
      match go with
      | .success raw =>
        finish_parse jsonParse raw ("Gemini (" ++ cfg.gemini_model ++ ")")
          [.cloudGemini]
      | .statusError code body =>
        let detail := "Gemini API error (Status " ++ toString code ++ "): " ++
          orNoDetails body
        if code == 403 then
          if check_local_ollama cfg then
            match lo with
            | .success raw =>
              finish_parse jsonParse raw
                ("Ollama (" ++ cfg.ollama_model ++ ") (fallback)")
                [.cloudGemini, .localOllama]
            | .exc _ e2 =>
              { reply := none,
                error := some (detail ++ ". Fallback to Local AI (" ++
                  cfg.ollama_model ++ ") also failed: " ++ e2),
                attempts := [.cloudGemini, .localOllama] }
          else
            { reply := none, error := some detail, attempts := [.cloudGemini] }
        else
          { reply := none, error := some detail, attempts := [.cloudGemini] }
      | .exc _ e =>
        { reply := none,
          error := some ("Cloud AI (" ++ cfg.gemini_model ++ ") failed: " ++ e),
          attempts := [.cloudGemini] }
    else
      { reply := none,
        error := some "Cloud AI service (Gemini) is not configured or available.",
        attempts := [] }

/-- The provider-query trace that the corrected failover policy predicts:
local-first calls retry once against cloud on any local failure when the
Gemini client is configured; cloud-first calls retry once against local
only on a 403 status error and only when the local provider is configured
and probed available; no other situation performs a second query, and the
parse stage never adds one. -/
def expected_attempts (cfg : AIConfig) (lo : LocalOutcome) (go : GeminiOutcome) :
    List Provider :=
  if cfg.use_local_preference && cfg.local_url.isSome && check_local_ollama cfg then
    match lo with
    | .success _ => [.localOllama]
    | .exc _ _ =>
      if cfg.gemini_configured then [.localOllama, .cloudGemini] else [.localOllama]
  else if cfg.gemini_configured then
    match go with
    | .statusError code _ =>
      if code == 403 && check_local_ollama cfg then [.cloudGemini, .localOllama]
      else [.cloudGemini]
    | _ => [.cloudGemini]
  else []

/-! ## Shared sample values for witnesses and counterexamples -/

/-- Sample row of the `items` table. -/
def rustySword : Item := ⟨1, "rusty_sword", "Rusty Sword"⟩

/-- Second sample row of the `items` table. -/
def potionItem : Item := ⟨2, "potion", "Potion"⟩

/-- Sample player with an empty inventory (the model defaults: 100/100
health, level 1). -/
def samplePlayer : Player := ⟨100, 100, 10, 0, 1, []⟩

/-- Sample loaded game state. -/
def sampleState : GameState :=
  ⟨"medium", 0, some ⟨"The Beginning", "A dim cell.", ["north"], []⟩,
   samplePlayer, []⟩

/-- An effect set that carries only a health delta, as the string the
schema transports. -/
def health_only_effects (s : String) : AIEventEffect :=
  ⟨some s, [], [], none, none, [], []⟩

/-- A validated reply with a single triggered event carrying only a health
delta. -/
def health_only_response (s : String) : AIResponse :=
  ⟨"You take a hit.",
   some [⟨"combat", "A blow lands.", none, some (health_only_effects s)⟩],
   none, none, none, none⟩

/-! ## C3 — health deltas are clamped to [0, max_health] -/

/-- C3: for every starting health `0 ≤ h ≤ max_health` and every signed
integer delta `d` carried (as a parseable string) by an event's effects,
applying the effects yields health `min max_health (max 0 (h + d))`; in
particular a delta far below zero clamps to 0 and is never an error. -/
theorem c3_health_clamped (catalog : List Item) (p : Player) (s : String) (d : Int)
    (hparse : pyInt s = some d) (h0 : 0 ≤ p.health) (h1 : p.health ≤ p.max_health) :
    apply_ai_effects catalog p (health_only_response s) =
      .ok { p with health := min p.max_health (max 0 (p.health + d)) } := by
  have hclamp : max 0 (min p.max_health (p.health + d)) =
      min p.max_health (max 0 (p.health + d)) := by omega
  simp [apply_ai_effects, health_only_response, health_only_effects, apply_events,
    apply_event_effects, apply_stat_changes, stats_from_gold, stats_from_xp,
    apply_removals, apply_additions, hparse, hclamp]

/-- Witness for C3, spec Scenario A: health 50/100 with effect `-70`
clamps to 0. -/
theorem c3_health_clamped_witness :
    pyInt "-70" = some (-70) ∧
    apply_ai_effects [] ⟨50, 100, 10, 0, 1, []⟩ (health_only_response "-70") =
      .ok ⟨0, 100, 10, 0, 1, []⟩ := by
  constructor
  · decide
  · have h := c3_health_clamped [] ⟨50, 100, 10, 0, 1, []⟩ "-70" (-70)
      (by decide) (by decide) (by decide)
    simpa using h

/-! ## C8 — experience is monotonically non-decreasing -/

/-- The xp step never decreases experience: positive deltas are added,
everything else leaves it unchanged. -/
theorem exp_stats_from_xp (p : Player) (eff : AIEventEffect) :
    p.experience ≤ (stats_from_xp p eff).experience := by
  cases hxp : eff.xp with
  | none => simp [stats_from_xp, hxp]
  | some s =>
    cases hp : pyInt s with
    | none => simp [stats_from_xp, hxp, hp]
    | some d =>
      simp only [stats_from_xp, hxp, hp]
      split
      · simp; omega
      · simp

/-- The gold step touches only gold and then runs the xp step. -/
theorem exp_stats_from_gold (p : Player) (eff : AIEventEffect) :
    p.experience ≤ (stats_from_gold p eff).experience := by
  cases hg : eff.gold with
  | none => simpa [stats_from_gold, hg] using exp_stats_from_xp p eff
  | some s =>
    cases hp : pyInt s with
    | none => simp [stats_from_gold, hg, hp]
    | some d =>
      simpa [stats_from_gold, hg, hp] using
        exp_stats_from_xp { p with gold := max 0 (p.gold + d) } eff

/-- The whole stat block never decreases experience. -/
theorem exp_apply_stat_changes (p : Player) (eff : AIEventEffect) :
    p.experience ≤ (apply_stat_changes p eff).experience := by
  cases hh : eff.health with
  | none => simpa [apply_stat_changes, hh] using exp_stats_from_gold p eff
  | some s =>
    cases hp : pyInt s with
    | none => simp [apply_stat_changes, hh, hp]
    | some d =>
      simpa [apply_stat_changes, hh, hp] using
        exp_stats_from_gold
          { p with health := max 0 (min p.max_health (p.health + d)) } eff

/-- One event's effect application never decreases experience: the
inventory blocks replace only `inventory_items`. -/
theorem exp_apply_event_effects (catalog : List Item) (cache : ItemsCache)
    (p : Player) (cache2 : ItemsCache) (p2 : Player) (eff : AIEventEffect)
    (h : apply_event_effects catalog (cache, p) eff = .ok (cache2, p2)) :
    p.experience ≤ p2.experience := by
  simp only [apply_event_effects] at h
  cases ha : apply_additions catalog
      (cache, apply_removals (apply_stat_changes p eff).inventory_items
        eff.inventory_remove) eff.inventory_add with
  | error e => rw [ha] at h; simp at h
  | ok st2 =>
    obtain ⟨c2, inv2⟩ := st2
    rw [ha] at h
    simp only [Except.ok.injEq, Prod.mk.injEq] at h
    have hp2 : p2 = { apply_stat_changes p eff with inventory_items := inv2 } :=
      h.2.symm
    rw [hp2]
    exact exp_apply_stat_changes p eff

/-- The event loop never decreases experience. -/
theorem exp_apply_events (catalog : List Item) (evs : List AIEvent) :
    ∀ cache p cache2 p2,
      apply_events catalog evs (cache, p) = .ok (cache2, p2) →
      p.experience ≤ p2.experience := by
  induction evs with
  | nil =>
    intro cache p cache2 p2 h
    simp only [apply_events, Except.ok.injEq, Prod.mk.injEq] at h
    rw [← h.2]
  | cons ev rest ih =>
    intro cache p cache2 p2 h
    simp only [apply_events] at h
    split at h
    · exact ih cache p cache2 p2 h
    · rename_i eff hef
      split at h
      · exact absurd h (by simp)
      · rename_i st2 ha
        obtain ⟨c3, p3⟩ := st2
        exact le_trans (exp_apply_event_effects catalog cache p c3 p3 eff ha)
          (ih c3 p3 cache2 p2 h)

/-- C8: player experience is monotonically non-decreasing across any
applied effect sets — whenever `_apply_ai_effects` completes, the
resulting experience is at least the starting experience, because positive
xp deltas are added and negative ones are rejected. -/
theorem c8_experience_monotone (catalog : List Item) (p : Player)
    (resp : AIResponse) (p2 : Player)
    (h : apply_ai_effects catalog p resp = .ok p2) :
    p.experience ≤ p2.experience := by
  simp only [apply_ai_effects] at h
  split at h
  · exact absurd h (by simp)
  · rename_i evs ht
    split at h
    · exact absurd h (by simp)
    · rename_i st ha
      obtain ⟨c2, p3⟩ := st
      simp only [Except.ok.injEq] at h
      exact h ▸ exp_apply_events catalog evs [] p c2 p3 ha

/-- Witness for C8 at a concrete run: a reply with one event granting
`+25` xp. -/
theorem c8_experience_monotone_witness :
    samplePlayer.experience ≤
      (Player.mk 100 100 10 25 1 []).experience :=
  c8_experience_monotone [] samplePlayer
    ⟨"You win.", some [⟨"combat", "Victory.", none,
       some ⟨none, [], [], none, some "+25", [], []⟩⟩], none, none, none, none⟩
    (Player.mk 100 100 10 25 1 []) rfl

/-! ## C9 — inventory removal semantics -/

/-- When no inventory entry matches the lowered name, the removal loop
finds nothing and changes nothing. -/
theorem removeOne_no_match (inv : List InvEntry) (nl : String)
    (h : ∀ e ∈ inv, pyLower e.item.name ≠ nl) : removeOne inv nl = inv := by
  induction inv with
  | nil => rfl
  | cons e rest ih =>
    have hne : (pyLower e.item.name == nl) = false := by
      simp [h e (by simp)]
    simp only [removeOne, hne, Bool.false_eq_true, if_false, List.cons.injEq, true_and]
    exact ih (fun x hx => h x (by simp [hx]))

/-- When the first matching entry is at position `pre.length`, the removal
loop decrements it if its quantity is above 1 and deletes it otherwise,
leaving every other entry in place. -/
theorem removeOne_first_match (nl : String) (pre : List InvEntry) (e : InvEntry)
    (post : List InvEntry) (hpre : ∀ x ∈ pre, pyLower x.item.name ≠ nl)
    (he : pyLower e.item.name = nl) :
    removeOne (pre ++ e :: post) nl =
      pre ++ (if 1 < e.quantity then { e with quantity := e.quantity - 1 } :: post
              else post) := by
  induction pre with
  | nil =>
    have heq : (pyLower e.item.name == nl) = true := by simp [he]
    simp [removeOne, heq]
  | cons x rest ih =>
    have hne : (pyLower x.item.name == nl) = false := by
      simp [hpre x (by simp)]
    simp only [List.cons_append, removeOne, hne, Bool.false_eq_true, if_false,
      List.cons.injEq, true_and]
    exact ih (fun y hy => hpre y (by simp [hy]))

/-- The removal loop never leaves an entry with quantity 0: a quantity of
1 deletes the entry instead of storing 0. -/
theorem removeOne_quantity_pos (inv : List InvEntry) (nl : String)
    (h : ∀ e ∈ inv, 1 ≤ e.quantity) :
    ∀ e ∈ removeOne inv nl, 1 ≤ e.quantity := by
  induction inv with
  | nil => intro e he; simp [removeOne] at he
  | cons x rest ih =>
    intro e he
    simp only [removeOne] at he
    by_cases hm : (pyLower x.item.name == nl) = true
    · rw [if_pos hm] at he
      by_cases hq : x.quantity > 1
      · rw [if_pos hq] at he
        rcases List.mem_cons.mp he with h1 | h2
        · subst h1; simp; omega
        · exact h e (by simp [h2])
      · rw [if_neg hq] at he
        exact h e (by simp [he])
    · rw [if_neg hm] at he
      rcases List.mem_cons.mp he with h1 | h2
      · subst h1; exact h e (by simp)
      · exact ih (fun y hy => h y (by simp [hy])) e h2

/-- C9: for every requested removal name (lowered and stripped to
`nameLower`): a non-matching inventory is returned unchanged without any
error; the first case-insensitively matching entry is decremented when its
quantity exceeds 1 and deleted entirely when it equals 1; and an inventory
whose quantities are all at least 1 keeps that property, so an entry is
never stored at quantity 0. -/
theorem c9_removal_semantics (inv : List InvEntry) (raw nameLower : String)
    (hnl : nameLower = pyStrip (pyLower raw)) (hne : nameLower ≠ "") :
    ((∀ e ∈ inv, pyLower e.item.name ≠ nameLower) →
        remove_item_name inv raw = inv) ∧
    (∀ pre e post, inv = pre ++ e :: post →
        (∀ x ∈ pre, pyLower x.item.name ≠ nameLower) →
        pyLower e.item.name = nameLower →
        remove_item_name inv raw =
          pre ++ (if 1 < e.quantity then
                    { e with quantity := e.quantity - 1 } :: post
                  else post)) ∧
    ((∀ e ∈ inv, 1 ≤ e.quantity) →
        ∀ e ∈ remove_item_name inv raw, 1 ≤ e.quantity) := by
  have hif : remove_item_name inv raw = removeOne inv nameLower := by
    rw [remove_item_name, ← hnl, if_neg (by simpa using hne)]
  refine ⟨fun h => ?_, fun pre e post hsplit hpre he => ?_, fun h => ?_⟩
  · rw [hif]; exact removeOne_no_match inv nameLower h
  · rw [hif, hsplit]; exact removeOne_first_match nameLower pre e post hpre he
  · rw [hif]; exact removeOne_quantity_pos inv nameLower h

/-- Witness for C9: removing `" RUSTY SWORD "` from an inventory holding
two Rusty Swords decrements the entry to quantity 1. -/
theorem c9_removal_semantics_witness :
    remove_item_name [⟨rustySword, 2⟩] " RUSTY SWORD " =
      [⟨rustySword, 1⟩] := by
  have h := (c9_removal_semantics [⟨rustySword, 2⟩] " RUSTY SWORD " "rusty sword"
    (by decide) (by decide)).2.1 [] ⟨rustySword, 2⟩ [] rfl (by simp) (by decide)
  simpa using h

/-! ## C10 — blank item names are skipped without error -/

/-- Removal names that strip to the empty string are skipped, so the
removal block behaves as if they were filtered out. -/
theorem apply_removals_filter_blank (names : List String) :
    ∀ inv, apply_removals inv names =
      apply_removals inv (names.filter (fun n => !(pyStrip (pyLower n) == ""))) := by
  induction names with
  | nil => intro inv; rfl
  | cons n rest ih =>
    intro inv
    by_cases hb : (pyStrip (pyLower n) == "") = true
    · have hskip : remove_item_name inv n = inv := by
        simp [remove_item_name, hb]
      simp only [apply_removals, List.filter_cons, hb, Bool.not_true,
        Bool.false_eq_true, if_false, hskip]
      exact ih inv
    · have hb2 : (pyStrip (pyLower n) == "") = false := by
        cases h : (pyStrip (pyLower n) == "") with
        | false => rfl
        | true => exact absurd h hb
      have hkeep : (!(pyStrip (pyLower n) == "")) = true := by rw [hb2]; rfl
      simp only [apply_removals, List.filter_cons, hkeep, if_true]
      exact ih (remove_item_name inv n)

/-- Addition names that strip to the empty string are skipped, so the
addition block behaves as if they were filtered out. -/
theorem apply_additions_filter_blank (catalog : List Item) (names : List String) :
    ∀ st, apply_additions catalog st names =
      apply_additions catalog st (names.filter (fun n => !(pyStrip n == ""))) := by
  induction names with
  | nil => intro st; rfl
  | cons n rest ih =>
    intro st
    by_cases hb : (pyStrip n == "") = true
    · have hskip : add_item_name catalog st n = .ok st := by
        simp [add_item_name, hb]
      simp only [apply_additions, List.filter_cons, hb, Bool.not_true,
        Bool.false_eq_true, if_false, hskip]
      exact ih st
    · have hb2 : (pyStrip n == "") = false := by
        cases h : (pyStrip n == "") with
        | false => rfl
        | true => exact absurd h hb
      have hkeep : (!(pyStrip n == "")) = true := by rw [hb2]; rfl
      simp only [apply_additions, List.filter_cons, hkeep, if_true]
      cases ha : add_item_name catalog st n with
      | error e => rfl
      | ok st2 => exact ih st2

/-- The stat block reads only the three stat fields. -/
theorem apply_stat_changes_congr (p : Player) (eff eff2 : AIEventEffect)
    (hh : eff2.health = eff.health) (hg : eff2.gold = eff.gold)
    (hx : eff2.xp = eff.xp) :
    apply_stat_changes p eff2 = apply_stat_changes p eff := by
  simp only [apply_stat_changes, stats_from_gold, stats_from_xp, hh, hg, hx]

/-- C10: an item name in `inventory_add` or `inventory_remove` that strips
to the empty string causes no inventory change and no error — applying an
event's effects equals applying them with all blank names filtered out, so
every other effect of the event still applies. -/
theorem c10_blank_item_names_skipped (catalog : List Item) (cache : ItemsCache)
    (p : Player) (eff : AIEventEffect) :
    apply_event_effects catalog (cache, p) eff =
      apply_event_effects catalog (cache, p)
        { eff with
          inventory_add := eff.inventory_add.filter (fun n => !(pyStrip n == "")),
          inventory_remove :=
            eff.inventory_remove.filter (fun n => !(pyStrip (pyLower n) == "")) } := by
  have hs : apply_stat_changes p
      { eff with
        inventory_add := eff.inventory_add.filter (fun n => !(pyStrip n == "")),
        inventory_remove :=
          eff.inventory_remove.filter (fun n => !(pyStrip (pyLower n) == "")) } =
      apply_stat_changes p eff :=
    apply_stat_changes_congr p eff _ rfl rfl rfl
  simp only [apply_event_effects, hs]
  rw [← apply_removals_filter_blank, ← apply_additions_filter_blank]

/-! ## C4 — effect application is not atomic -/

/-- Effect set whose gold value cannot be parsed as an integer while the
health delta and the (positive) xp delta are perfectly parseable and an
item is added. -/
def c4Effects : AIEventEffect :=
  ⟨some "-10", ["Potion"], [], some "oops", some "+5", [], []⟩

/-- Reply with a single event carrying `c4Effects`. -/
def c4Response : AIResponse :=
  ⟨"You drink something strange.",
   some [⟨"trap", "A vial shatters.", none, some c4Effects⟩],
   none, none, none, none⟩

/-- Player before the `c4Response` turn. -/
def c4Player : Player := ⟨50, 100, 7, 0, 1, []⟩

/-- Player after the `c4Response` turn as the code computes it. -/
def c4Partial : Player := ⟨40, 100, 7, 0, 1, [⟨potionItem, 1⟩]⟩

/-- Counterexample to C4: with health `-10`, gold `"oops"` and xp `+5` in
one event, the turn is applied partially — the health delta is applied
(50 to 40) and the inventory addition is applied, but the perfectly
parseable xp delta is skipped because the `ValueError` from `int("oops")`
aborts the remaining stat changes.  This is neither "all effects" nor "no
effects", refuting atomicity. -/
theorem c4_counterexample :
    apply_ai_effects [potionItem] c4Player c4Response = .ok c4Partial ∧
    c4Partial.health ≠ c4Player.health ∧
    c4Partial.inventory_items ≠ c4Player.inventory_items ∧
    c4Partial.experience = c4Player.experience ∧
    pyInt "+5" = some 5 :=
  ⟨rfl, by decide, by decide, rfl, by decide⟩

/-- C4 as amended: effect application is not atomic.  Within one event the
stat deltas apply in the order health, gold, xp, and an unparseable
numeric value aborts only the remaining stat deltas (already-applied ones
persist — here stated for an unparseable gold value, which skips the xp
delta even when it is valid), while the event's inventory changes are
still applied exactly as if the failed stat deltas had been absent. -/
theorem c4_stat_abort_not_atomic (catalog : List Item) (cache : ItemsCache)
    (p : Player) (eff : AIEventEffect) (g : String)
    (hg : eff.gold = some g) (hparse : pyInt g = none) :
    stats_from_gold p eff = p ∧
    (eff.health = none →
      apply_event_effects catalog (cache, p) eff =
        apply_event_effects catalog (cache, p)
          { eff with gold := none, xp := none }) := by
  constructor
  · simp [stats_from_gold, hg, hparse]
  · intro hh
    have h1 : apply_stat_changes p eff = p := by
      simp [apply_stat_changes, hh, stats_from_gold, hg, hparse]
    have h2 : apply_stat_changes p { eff with gold := none, xp := none } = p := by
      simp [apply_stat_changes, hh, stats_from_gold, stats_from_xp]
    simp only [apply_event_effects, h1, h2]

/-- Witness for C4's amended statement at a concrete effect set. -/
theorem c4_stat_abort_not_atomic_witness :
    stats_from_gold c4Player ⟨none, ["Potion"], [], some "oops", some "+5", [], []⟩ =
      c4Player ∧
    apply_event_effects [potionItem] ([], c4Player)
        ⟨none, ["Potion"], [], some "oops", some "+5", [], []⟩ =
      apply_event_effects [potionItem] ([], c4Player)
        ⟨none, ["Potion"], [], none, none, [], []⟩ :=
  ⟨(c4_stat_abort_not_atomic [potionItem] [] c4Player
      ⟨none, ["Potion"], [], some "oops", some "+5", [], []⟩ "oops" rfl (by decide)).1,
   (c4_stat_abort_not_atomic [potionItem] [] c4Player
      ⟨none, ["Potion"], [], some "oops", some "+5", [], []⟩ "oops" rfl (by decide)).2 rfl⟩

/-! ## C5 — inventory additions go through the item catalog -/

/-- Reply whose single event adds "Rusty Sword". -/
def c5Response : AIResponse :=
  ⟨"You grab the sword.",
   some [⟨"treasure", "A sword lies here.", none,
     some ⟨none, ["Rusty Sword"], [], none, none, [], []⟩⟩],
   none, none, none, none⟩

/-- Counterexample to C5: with no matching `Item` row in the items table,
adding "Rusty Sword" to an empty inventory creates NO entry at all — the
addition is skipped with a warning — whereas the claim requires a new
entry with quantity 1 to be created whenever no inventory entry matches. -/
theorem c5_counterexample :
    samplePlayer.inventory_items = [] ∧
    apply_ai_effects [] samplePlayer c5Response = .ok samplePlayer :=
  ⟨rfl, rfl⟩

/-- Total quantity held across an inventory. -/
def total_quantity (inv : List InvEntry) : Nat :=
  (inv.map InvEntry.quantity).sum

/-- Incrementing the first entry with a given item id preserves the number
of entries. -/
theorem bump_first_length (inv : List InvEntry) (i : Nat) :
    (bump_first inv i).length = inv.length := by
  induction inv with
  | nil => rfl
  | cons e rest ih =>
    simp only [bump_first]
    split <;> simp [ih]

/-- Incrementing the first entry with a given item id raises the total
quantity by exactly 1 when some entry has that id. -/
theorem bump_first_total (inv : List InvEntry) (i : Nat)
    (h : inv.any (fun e => e.item.id == i) = true) :
    total_quantity (bump_first inv i) = total_quantity inv + 1 := by
  induction inv with
  | nil => simp at h
  | cons e rest ih =>
    simp only [bump_first]
    by_cases he : (e.item.id == i) = true
    · rw [if_pos he]
      simp only [total_quantity, List.map_cons, List.sum_cons]
      omega
    · rw [if_neg he]
      have h2 : rest.any (fun e => e.item.id == i) = true := by
        simp only [List.any_cons] at h
        rcases Bool.or_eq_true_iff.mp h with h1 | h1
        · exact absurd h1 he
        · exact h1
      simp only [total_quantity, List.map_cons, List.sum_cons] at ih ⊢
      rw [ih h2]
      omega

/-- C5 as amended: an addition name (after stripping, when nonempty and
not cached) is first resolved to an `Item` definition by the catalog query
on the generated key or the case-insensitive name; when no definition
exists the addition is skipped entirely and no inventory entry is created;
when a definition is found it is cached and the inventory is updated by
`add_entry`, which increments the entry holding that item id by exactly 1
without creating a duplicate, and otherwise appends a new entry with
quantity 1. -/
theorem c5_additions_resolve_through_catalog :
    (∀ (catalog : List Item) (cache : ItemsCache) (inv : List InvEntry)
        (raw : String) (it : Item),
        pyStrip raw ≠ "" →
        List.lookup (make_item_key (pyStrip raw)) cache = none →
        find_item_def catalog (make_item_key (pyStrip raw)) (pyStrip raw) =
          .ok (some it) →
        add_item_name catalog (cache, inv) raw =
          .ok ((make_item_key (pyStrip raw), it) :: cache, add_entry inv it)) ∧
    (∀ (catalog : List Item) (cache : ItemsCache) (inv : List InvEntry)
        (raw : String),
        List.lookup (make_item_key (pyStrip raw)) cache = none →
        find_item_def catalog (make_item_key (pyStrip raw)) (pyStrip raw) =
          .ok none →
        add_item_name catalog (cache, inv) raw = .ok (cache, inv)) ∧
    (∀ (inv : List InvEntry) (it : Item),
        (inv.any (fun e => e.item.id == it.id) = true →
          (add_entry inv it).length = inv.length ∧
          total_quantity (add_entry inv it) = total_quantity inv + 1) ∧
        (inv.any (fun e => e.item.id == it.id) = false →
          add_entry inv it = inv ++ [⟨it, 1⟩])) := by
  refine ⟨?_, ?_, ?_⟩
  · intro catalog cache inv raw it hne hcache hfind
    have hb : (pyStrip raw == "") = false := by simpa using hne
    simp [add_item_name, hb, hcache, hfind]
  · intro catalog cache inv raw hcache hfind
    by_cases hb : (pyStrip raw == "") = true
    · simp [add_item_name, hb]
    · have hb2 : (pyStrip raw == "") = false := by
        cases h : (pyStrip raw == "") with
        | false => rfl
        | true => exact absurd h hb
      simp [add_item_name, hb2, hcache, hfind]
  · intro inv it
    constructor
    · intro hany
      rw [add_entry, if_pos hany]
      exact ⟨bump_first_length inv it.id, bump_first_total inv it.id hany⟩
    · intro hnone
      rw [add_entry, hnone]
      simp

/-- Witness for C5's amended statement: with the Rusty Sword definition in
the catalog, adding "rusty sword" (different case) creates the entry and a
second addition increments it without creating a duplicate. -/
theorem c5_additions_resolve_through_catalog_witness :
    add_item_name [rustySword] ([], []) "rusty sword" =
      .ok ([("rusty_sword", rustySword)], [⟨rustySword, 1⟩]) ∧
    (add_entry [⟨rustySword, 1⟩] rustySword).length = 1 ∧
    total_quantity (add_entry [⟨rustySword, 1⟩] rustySword) =
      total_quantity [⟨rustySword, 1⟩] + 1 ∧
    add_entry [] rustySword = [⟨rustySword, 1⟩] := by
  refine ⟨?_, ?_, ?_, ?_⟩
  · have h := c5_additions_resolve_through_catalog.1 [rustySword] [] []
      "rusty sword" rustySword (by decide) rfl rfl
    simpa using h
  · exact ((c5_additions_resolve_through_catalog.2.2 [⟨rustySword, 1⟩]
      rustySword).1 (by decide)).1
  · exact ((c5_additions_resolve_through_catalog.2.2 [⟨rustySword, 1⟩]
      rustySword).1 (by decide)).2
  · exact (c5_additions_resolve_through_catalog.2.2 [] rustySword).2 (by decide)

/-! ## C1 — a failed generative call leaves the loaded session untouched -/

/-- C1: whenever the generative call reports a failure (a truthy error
string or a missing reply), `handle_player_command` returns the loaded
session itself — no chat message is appended, no player or inventory
change is applied, and the room and `rooms_cleared` are untouched —
together with a null reply and the error message, so the caller can retry
the same command. -/
theorem c1_failed_ai_call_returns_loaded_session (catalog : List Item)
    (dump : AIResponse → String) (gs : GameState) (command : String)
    (resp : Option AIResponse) (err : Option String)
    (h : truthyOptStr err = true ∨ resp = none) :
    handle_player_command catalog dump gs command (resp, err) =
      (some gs, none,
        some ("AI interaction failed: " ++ orElseStr err "No response")) := by
  cases resp with
  | none => rfl
  | some r =>
    rcases h with h | h
    · simp [handle_player_command, h]
    · exact absurd h (by simp)

/-- Witness for C1: a concrete failed call hands back the loaded state. -/
theorem c1_failed_ai_call_returns_loaded_session_witness :
    handle_player_command [] (fun _ => "") sampleState "look"
        (none, some "Cloud AI (gemini-pro) failed: timeout") =
      (some sampleState, none,
        some "AI interaction failed: Cloud AI (gemini-pro) failed: timeout") := by
  simpa using c1_failed_ai_call_returns_loaded_session [] (fun _ => "")
    sampleState "look" none (some "Cloud AI (gemini-pro) failed: timeout")
    (Or.inl (by decide))

/-! ## C6 — the room transition crashes on the missing `new_room_exits` -/

/-- Validated reply with a room transition and no suggested title, the
input of spec Scenario E. -/
def c6Response : AIResponse :=
  ⟨"You wade into the crypt.", some [], some "A flooded crypt.",
   none, none, none⟩

/-- C6: evaluating `handle_player_command` on a reply whose
`room_description` is present does NOT produce the claimed room update.
The imported `AIResponse` class declares no `new_room_exits` field, so the
read at game_service.py line 224 raises `AttributeError`; the surrounding
`except` rolls the transaction back and the call returns
`(None, None, error)` — the room is never replaced and `rooms_cleared`
never increments. -/
theorem c6_room_transition_raises_attribute_error :
    read_new_room_exits c6Response = .error (.attributeError "new_room_exits") ∧
    handle_player_command [] (fun _ => "serialized-reply") sampleState "go north"
        (some c6Response, none) =
      (none, none,
        some "An unexpected server error occurred: AttributeError: new_room_exits") :=
  ⟨rfl, rfl⟩

/-! ## C2 — failover happens local-to-cloud on any failure, cloud-to-local
only on 403 -/

/-- Binding on an `Except.error` short-circuits. -/
theorem except_error_bind {ε α β : Type} (e : ε) (f : α → Except ε β) :
    (Except.error e >>= f : Except ε β) = Except.error e := rfl

/-- The parse stage never performs another provider query: the attempt
trace of `finish_parse` is exactly the trace it was handed. -/
theorem finish_parse_attempts (jp : String → Option Json) (raw su : String)
    (att : List Provider) : (finish_parse jp raw su att).attempts = att := by
  unfold finish_parse
  split
  · rfl
  · split
    · rfl
    · split <;> rfl

/-- C2 as amended: the provider-query trace of every call equals
`expected_attempts` — a local-first attempt retries exactly once against
cloud on ANY local failure iff the Gemini client is configured; a
cloud-first attempt retries exactly once against local ONLY on a 403
status error and only when the local provider is configured and probed
available (cloud timeouts and connection failures are NOT retried); no
other second query ever happens, so there is at most one failover per
call, and a malformed payload (the parse stage) never changes provider. -/
theorem c2_failover_policy (cfg : AIConfig) (jp : String → Option Json)
    (lo : LocalOutcome) (go : GeminiOutcome) :
    (generate_structured_response cfg jp lo go).attempts =
      expected_attempts cfg lo go := by
  unfold generate_structured_response expected_attempts
  repeat' split
  all_goals try rfl
  all_goals simp_all [finish_parse_attempts]

/-- Configuration in which the cloud provider is preferred while the local
provider is configured and probed available. -/
def c2Config : AIConfig :=
  ⟨false, some "http://localhost:11434", true, true, "llama3", "gemini-pro"⟩

/-- Counterexample to C2: a timeout on the cloud-first attempt performs NO
retry against the configured, available local provider — the call queries
Gemini only and returns a null reply with an error, while the claim
requires exactly one retry against the other provider in both
directions. -/
theorem c2_counterexample :
    check_local_ollama c2Config = true ∧
    (generate_structured_response c2Config (fun _ => none) (.success "unused")
        (.exc .timeout "Request timed out.")).attempts = [.cloudGemini] ∧
    (generate_structured_response c2Config (fun _ => none) (.success "unused")
        (.exc .timeout "Request timed out.")).reply = none :=
  ⟨rfl, rfl, rfl⟩

/-! ## C7 — validation requires `action_result_description` to be present,
but accepts it empty -/

/-- Counterexample to C7: a recovered JSON object whose
`action_result_description` is the EMPTY string validates successfully and
produces a reply object, while the claim requires a null reply with a
malformed-output error for an empty field. -/
theorem c7_counterexample :
    model_validate (.obj [("action_result_description", .str "")]) =
      .ok ⟨"", some [], none, none, none, none⟩ := rfl

/-- C7 as amended: validation fails when `action_result_description` is
missing, but any string value — including the empty string — is accepted;
unknown fields are ignored and missing optional fields take their
defaults, so a reply object is returned whenever the field is present as a
string. -/
theorem c7_ard_required_but_may_be_empty :
    (∀ kvs : List (String × Json),
        List.lookup "action_result_description" kvs = none →
        model_validate (.obj kvs) =
          .error "action_result_description: Field required") ∧
    (∀ (s : String) (j : Json),
        model_validate (.obj [("action_result_description", .str s),
            ("unknown_field", j)]) =
          .ok ⟨s, some [], none, none, none, none⟩) := by
  constructor
  · intro kvs h
    have hreq : validate_req_str kvs "action_result_description" =
        .error "action_result_description: Field required" := by
      simp [validate_req_str, h]
    simp [model_validate, hreq, except_error_bind]
  · intro s j
    rfl

/-- Witness for C7's amended statement. -/
theorem c7_ard_required_but_may_be_empty_witness :
    model_validate (.obj []) =
      .error "action_result_description: Field required" ∧
    model_validate (.obj [("action_result_description", .str "You wait."),
        ("unknown_field", .null)]) =
      .ok ⟨"You wait.", some [], none, none, none, none⟩ :=
  ⟨c7_ard_required_but_may_be_empty.1 [] rfl,
   c7_ard_required_but_may_be_empty.2 "You wait." .null⟩
